import Mathlib

/-!
Verification of the asynchronous process-execution and output-streaming core
of `simple-apt-update` (`usr/share/simple-apt-update/app.py`), shallowly
embedded in Lean.

Worker side: `UpdateWindow.run` (app.py lines 132-157) spawns a child
process, registers its stdout and stderr pipes with a selector, and loops:
for each ready stream it does one partial read, enqueues the rstripped data
onto that stream's queue when non-empty, then polls the child's exit status;
as soon as the poll returns a code it enqueues the in-band chunk
`"EXIT %d" % exit_code` on the stdout queue and stops.

Consumer side: `UpdateWindow.update_buffer` (lines 205-240) runs on a GLib
timer; each tick takes at most one chunk from each queue.  A stdout chunk
matching the regex `EXIT (\d+)` is classified as the terminal chunk
(exit-code classification, message policy, unlock); any other stdout chunk
is accumulated and rendered as a STDOUT line; stderr chunks are accumulated
and rendered as STDERR lines unless `ignore_stderr` is set.

The child process and the OS readiness scheduling are the environment: a
`RunState` carries the child's pending pipe contents (`outReads`,
`errReads`, the successive results of `read1()`), the number of `poll()`
calls that still return `None` before the exit status becomes available
(`pollCountdown`), and the exit code; a schedule is the list of ready-key
sets returned by the successive `sel.select()` calls.
-/

/-- The two registered streams of the child process (`p.stdout`, `p.stderr`). -/
inductive ChildStream where
  | stdout
  | stderr
deriving DecidableEq, Repr

/-- State of one in-flight `run` call: the child's remaining pipe contents
and exit behaviour, plus the two queues (`self.stdout_queue`,
`self.stderr_queue`) as the worker fills them.  `exitPuts` counts how many
times the terminal put on line 155 (`stdout_queue.put("EXIT %d" % exit_code)`)
has executed. -/
structure RunState where
  outReads : List String
  errReads : List String
  pollCountdown : Nat
  exitCode : Int
  outQ : List String
  errQ : List String
  exitPuts : Nat
deriving DecidableEq, Repr

/-- Python `str.rstrip()` (trailing whitespace removed), as applied on
line 144: `key.fileobj.read1().decode().rstrip()`. -/
def pyRstrip (s : String) : String :=
  String.mk (List.reverse (List.dropWhile Char.isWhitespace s.data.reverse))

/-- One `read1()` on the given stream: the next pending chunk, or `""` at
end-of-file. -/
def readStream (st : RunState) (s : ChildStream) : String × RunState :=
  match s with
  | .stdout =>
    match st.outReads with
    | [] => ("", st)
    | d :: rest => (d, { st with outReads := rest })
  | .stderr =>
    match st.errReads with
    | [] => ("", st)
    | d :: rest => (d, { st with errReads := rest })

/-- Lines 146-150: `if data:` enqueue the chunk onto the queue of the
originating stream (`key.fileobj is p.stdout` picks the queue). -/
def enqueueData (st : RunState) (s : ChildStream) (data : String) : RunState :=
  if data = "" then st
  else
    match s with
    | .stdout => { st with outQ := st.outQ ++ [data] }
    | .stderr => { st with errQ := st.errQ ++ [data] }

/-- Lines 152-157: `exit_code = p.poll()`; while the process is still
running this returns `None` (countdown ticks down); once it has exited it
returns the exit code, whereupon `"EXIT %d" % exit_code` is put on the
stdout queue and `done` is set. -/
def pollStep (st : RunState) : RunState × Bool :=
  if st.pollCountdown = 0 then
    ({ st with outQ := st.outQ ++ ["EXIT " ++ toString st.exitCode],
               exitPuts := st.exitPuts + 1 }, true)
  else
    ({ st with pollCountdown := st.pollCountdown - 1 }, false)

/-- The body of the `for key, _ in sel.select():` loop (lines 143-157) for
one ready key: read, rstrip, enqueue when non-empty, then poll.  Returns
the new state and the `done` flag. -/
def serviceKey (st : RunState) (s : ChildStream) : RunState × Bool :=
  let r := readStream st s
  pollStep (enqueueData r.2 s (pyRstrip r.1))

/-- Service the ready keys of one `sel.select()` wake-up in order, stopping
at the `break` that follows the terminal put. -/
def serviceKeys (st : RunState) (keys : List ChildStream) : RunState × Bool :=
  match keys with
  | [] => (st, false)
  | k :: rest =>
    let r := serviceKey st k
    if r.2 then (r.1, true) else serviceKeys r.1 rest

/-- The `while not done:` loop of `run` (lines 142-157), driven by the list
of ready-key sets the selector returns.  The Bool result is the final value
of `done`: `false` means the schedule ended with the process still running. -/
def runLoop (st : RunState) (sched : List (List ChildStream)) : RunState × Bool :=
  match sched with
  | [] => (st, false)
  | keys :: rest =>
    let r := serviceKeys st keys
    if r.2 then (r.1, true) else runLoop r.1 rest

/-- The whole worker-thread body `run` (lines 132-157).  `subprocess.Popen`
is the environment: `spawn = none` models a spawn failure (missing or
unexecutable executable), in which case `Popen` raises, the exception is
uncaught, the thread dies, and nothing is ever enqueued — modelled as
`Except.error ()` with no run state produced. -/
def runThread (spawn : Option RunState) (sched : List (List ChildStream)) :
    Except Unit (RunState × Bool) :=
  match spawn with
  | none => Except.error ()
  | some st => Except.ok (runLoop st sched)

/-- Decimal value of a digit string, as Python `int(match.group(1))` computes
it for the `\d+` capture. -/
def digitsToNat (l : List Char) : Nat :=
  l.foldl (fun a c => a * 10 + (c.toNat - 48)) 0

/-- `re.fullmatch(r'EXIT (\d+)', text)` on the character list of `text`
(line 208): the whole string must be `EXIT `, a space, then one or more
digits; on success the captured code is returned. -/
def matchExitChars : List Char → Option Nat
  | 'E' :: 'X' :: 'I' :: 'T' :: ' ' :: c :: rest =>
    if (c :: rest).all Char.isDigit then some (digitsToNat (c :: rest)) else none
  | _ => none

/-- `re.fullmatch(r'EXIT (\d+)', text)` followed by `int(match.group(1))`. -/
def matchExit (text : String) : Option Nat :=
  matchExitChars text.data

/-- Consumer-side state of `UpdateWindow` as touched by `execute` and
`update_buffer`: the accumulated `self.stdout` / `self.stderr` buffers, the
lock state of the three buttons plus spinner (`lock`/`unlock`), the
per-command display policy set by `execute`, and the log lines appended by
`update_buffer` via `append_mesg(level, text)` in order.  A line's text is
kept as the Python value passed to `append_mesg` (an `Option String`,
because lines 221 and 223 pass `self.empty_msg`, which may be `None`). -/
structure Consumer where
  stdout : String
  stderr : String
  locked : Bool
  empty_msg : Option String
  output_msg : Option String
  ignore_stderr : Bool
  rendered : List (String × Option String)
deriving DecidableEq, Repr

/-- The stdout-queue half of `update_buffer` (lines 206-228), applied to one
dequeued chunk `text`: chunks matching `EXIT (\d+)` are classified
(non-zero → ERROR line with the numeric code; zero with empty accumulated
stdout and a configured `empty_msg` → INFO line with `empty_msg`; zero with
non-empty accumulated stdout and a configured `output_msg` → INFO line with
`empty_msg`, exactly as line 223 passes `self.empty_msg`) and then the
controls are unlocked; every other chunk is appended to the accumulated
stdout and rendered as a STDOUT line. -/
def processStdoutText (c : Consumer) (text : String) : Consumer :=
  match matchExit text with
  | none =>
    { c with stdout := c.stdout ++ text,
             rendered := c.rendered ++ [("STDOUT", some text)] }
  | some exit_code =>
    let c1 :=
      if exit_code ≠ 0 then
        { c with rendered :=
            c.rendered ++ [("ERROR", some ("Command exited with code " ++ toString exit_code))] }
      else if c.stdout = "" ∧ c.empty_msg ≠ none then
        { c with rendered := c.rendered ++ [("INFO", c.empty_msg)] }
      else if c.stdout ≠ "" ∧ c.output_msg ≠ none then
        { c with rendered := c.rendered ++ [("INFO", c.empty_msg)] }
      else c
    { c1 with locked := false }

/-- The stderr-queue half of `update_buffer` (lines 230-238): append the
chunk to the accumulated stderr, and render a STDERR line unless
`ignore_stderr` is set. -/
def processStderrText (c : Consumer) (text : String) : Consumer :=
  let c1 := { c with stderr := c.stderr ++ text }
  if c.ignore_stderr then c1
  else { c1 with rendered := c1.rendered ++ [("STDERR", some text)] }

/-- One successful dequeue event seen by the poller: a chunk from the stdout
queue or one from the stderr queue.  A `queue.Empty` outcome changes
nothing (lines 227-228, 237-238) and therefore needs no event. -/
inductive Ev where
  | out (t : String)
  | err (t : String)
deriving DecidableEq, Repr

/-- Apply one dequeue event. -/
def consumeEv (c : Consumer) : Ev → Consumer
  | .out t => processStdoutText c t
  | .err t => processStderrText c t

/-- The consumer's evolution over a sequence of dequeue events: successive
`update_buffer` ticks interleave the two queues arbitrarily, but each queue
is dequeued in FIFO order, so a run is any event list whose `out`
projection is the stdout queue's contents and whose `err` projection is the
stderr queue's contents. -/
def processEvents (c : Consumer) (evs : List Ev) : Consumer :=
  evs.foldl consumeEv c

/-- The stdout-queue projection of an event list. -/
def outTexts (evs : List Ev) : List String :=
  evs.filterMap fun e => match e with | .out t => some t | .err _ => none

/-- The stderr-queue projection of an event list. -/
def errTexts (evs : List Ev) : List String :=
  evs.filterMap fun e => match e with | .err t => some t | .out _ => none

/-- The rendered lines that did not come from the stderr queue (their level
is INFO, ERROR or STDOUT, never STDERR). -/
def nonStderrLines (c : Consumer) : List (String × Option String) :=
  c.rendered.filter fun p => p.1 != "STDERR"

/-- The rendered lines carrying a given level prefix. -/
def linesWithLevel (lvl : String) (c : Consumer) : List (String × Option String) :=
  c.rendered.filter fun p => p.1 == lvl

/-- Folding the stdout-queue chunks alone through the stdout half of
`update_buffer`. -/
def outFold (c : Consumer) (l : List String) : Consumer :=
  l.foldl processStdoutText c

/-- A command spec as passed to `execute` (lines 114-115), with `execute`'s
default arguments. -/
structure CommandSpec where
  args : List String
  ignore_stderr : Bool := false
  output_msg : Option String := none
  empty_msg : Option String := none
  env : List (String × String) := []
  clear : Bool := true
deriving DecidableEq, Repr

/-- The `update` command (lines 182-185). -/
def updateSpec : CommandSpec :=
  { args := ["/usr/bin/apt", "-y", "update"],
    env := [("DEBIAN_FRONTEND", "noninteractive")] }

/-- The `upgrade` command (lines 171-177). -/
def upgradeSpec : CommandSpec :=
  { args := ["/usr/bin/apt", "-yqq", "full-upgrade"],
    env := [("DEBIAN_FRONTEND", "noninteractive")],
    empty_msg := some "No package upgrades were performed." }

/-- The `list` command (lines 190-197). -/
def listSpec : CommandSpec :=
  { args := ["/usr/bin/apt", "-qq", "list", "--upgradable"],
    ignore_stderr := true,
    output_msg := some "Found the following package upgrades:",
    empty_msg := some "Comando executado!" }

/-- The consumer state right after `execute(spec)` ran lines 116-128: locked
controls, cleared accumulation buffers, the spec's display policy
installed.  `rendered` starts empty: it tracks the lines `update_buffer`
appends for this run (`execute` itself prepends the
`Running command "..." ...` header to the top of the text buffer, which is
not an `update_buffer` line). -/
def initConsumer (spec : CommandSpec) : Consumer :=
  { stdout := "", stderr := "", locked := true,
    empty_msg := spec.empty_msg, output_msg := spec.output_msg,
    ignore_stderr := spec.ignore_stderr, rendered := [] }

/-- A child that wrote a final chunk on each stream and has already exited
with code 0 when `run` wakes up with both streams ready. -/
def lostChild : RunState :=
  { outReads := ["done\n"], errReads := ["warning\n"], pollCountdown := 0,
    exitCode := 0, outQ := [], errQ := [], exitPuts := 0 }

/-- One selector wake-up reporting both streams ready, stdout first. -/
def bothReadyWake : List (List ChildStream) := [[ChildStream.stdout, ChildStream.stderr]]

/-- A still-running child (many polls before the exit status appears) that
printed the literal line `EXIT 0` on its stdout. -/
def inbandChild : RunState :=
  { outReads := ["EXIT 0\n"], errReads := [], pollCountdown := 5,
    exitCode := 0, outQ := [], errQ := [], exitPuts := 0 }

/-- One selector wake-up reporting only stdout ready. -/
def singleStdoutWake : List (List ChildStream) := [[ChildStream.stdout]]

/-- A child that printed nothing and exited with code 0. -/
def quietExitChild : RunState :=
  { outReads := [], errReads := [], pollCountdown := 0,
    exitCode := 0, outQ := [], errQ := [], exitPuts := 0 }

/-- A child killed by signal `m+1`: `p.poll()` reports the negative exit
code `-(m+1)` (`Int.negSucc m`). -/
def signalChild (m : Nat) : RunState :=
  { outReads := [], errReads := [], pollCountdown := 0,
    exitCode := Int.negSucc m, outQ := [], errQ := [], exitPuts := 0 }

/-- A `list` run mid-flight: one package line has already been consumed, so
the accumulated stdout is non-empty when the terminal chunk arrives. -/
def busyListConsumer : Consumer :=
  { stdout := "pkg/now 1.0 all", stderr := "", locked := true,
    empty_msg := some "Comando executado!",
    output_msg := some "Found the following package upgrades:",
    ignore_stderr := true, rendered := [("STDOUT", some "pkg/now 1.0 all")] }

/-! ### Worker-side lemmas: shape of the queues `run` produces -/

theorem readStream_sig (st : RunState) (s : ChildStream) :
    (readStream st s).2.outQ = st.outQ ∧ (readStream st s).2.errQ = st.errQ ∧
    (readStream st s).2.pollCountdown = st.pollCountdown ∧
    (readStream st s).2.exitCode = st.exitCode ∧
    (readStream st s).2.exitPuts = st.exitPuts := by
  cases s
  · rcases h : st.outReads with _ | ⟨d, rest⟩ <;> simp [readStream, h]
  · rcases h : st.errReads with _ | ⟨d, rest⟩ <;> simp [readStream, h]

theorem enqueueData_sig (st : RunState) (s : ChildStream) (data : String) :
    (∃ a, (enqueueData st s data).outQ = st.outQ ++ a) ∧
    (enqueueData st s data).pollCountdown = st.pollCountdown ∧
    (enqueueData st s data).exitCode = st.exitCode ∧
    (enqueueData st s data).exitPuts = st.exitPuts := by
  unfold enqueueData
  split
  · exact ⟨⟨[], by simp⟩, rfl, rfl, rfl⟩
  · cases s
    · exact ⟨⟨[data], rfl⟩, rfl, rfl, rfl⟩
    · exact ⟨⟨[], by simp⟩, rfl, rfl, rfl⟩

theorem pollStep_done {st st' : RunState} (h : pollStep st = (st', true)) :
    st'.outQ = st.outQ ++ ["EXIT " ++ toString st.exitCode] ∧
    st'.exitPuts = st.exitPuts + 1 ∧ st'.pollCountdown = 0 ∧
    st'.exitCode = st.exitCode := by
  unfold pollStep at h
  split at h
  · obtain ⟨h1, -⟩ := Prod.mk.injEq .. ▸ h
    subst h1
    simp_all
  · simp [Prod.ext_iff] at h

theorem pollStep_cont {st st' : RunState} (h : pollStep st = (st', false)) :
    st'.outQ = st.outQ ∧ st'.exitPuts = st.exitPuts ∧ st'.exitCode = st.exitCode := by
  unfold pollStep at h
  split at h
  · simp [Prod.ext_iff] at h
  · obtain ⟨h1, -⟩ := Prod.mk.injEq .. ▸ h
    subst h1
    simp_all

theorem serviceKey_done {st : RunState} {k : ChildStream} {st' : RunState}
    (h : serviceKey st k = (st', true)) :
    ∃ a, st'.outQ = st.outQ ++ a ++ ["EXIT " ++ toString st.exitCode] ∧
      st'.exitPuts = st.exitPuts + 1 ∧ st'.pollCountdown = 0 ∧
      st'.exitCode = st.exitCode := by
  unfold serviceKey at h
  have h1 := readStream_sig st k
  have h2 := enqueueData_sig (readStream st k).2 k (pyRstrip (readStream st k).1)
  have h3 := pollStep_done h
  obtain ⟨⟨a, ha⟩, hp, hc, he⟩ := h2
  refine ⟨a, ?_, ?_, h3.2.2.1, ?_⟩
  · rw [h3.1, ha, h1.1, hc, h1.2.2.2.1]
  · rw [h3.2.1, he, h1.2.2.2.2]
  · rw [h3.2.2.2, hc, h1.2.2.2.1]

theorem serviceKey_cont {st : RunState} {k : ChildStream} {st' : RunState}
    (h : serviceKey st k = (st', false)) :
    ∃ a, st'.outQ = st.outQ ++ a ∧ st'.exitPuts = st.exitPuts ∧
      st'.exitCode = st.exitCode := by
  unfold serviceKey at h
  have h1 := readStream_sig st k
  have h2 := enqueueData_sig (readStream st k).2 k (pyRstrip (readStream st k).1)
  have h3 := pollStep_cont h
  obtain ⟨⟨a, ha⟩, hp, hc, he⟩ := h2
  refine ⟨a, ?_, ?_, ?_⟩
  · rw [h3.1, ha, h1.1]
  · rw [h3.2.1, he, h1.2.2.2.2]
  · rw [h3.2.2, hc, h1.2.2.2.1]

theorem serviceKeys_done {keys : List ChildStream} {st st' : RunState}
    (h : serviceKeys st keys = (st', true)) :
    ∃ a, st'.outQ = st.outQ ++ a ++ ["EXIT " ++ toString st.exitCode] ∧
      st'.exitPuts = st.exitPuts + 1 ∧ st'.pollCountdown = 0 ∧
      st'.exitCode = st.exitCode := by
  induction keys generalizing st with
  | nil => simp [serviceKeys, Prod.ext_iff] at h
  | cons k rest ih =>
    rcases hsk : serviceKey st k with ⟨stm, d⟩
    rw [serviceKeys, hsk] at h
    cases d with
    | true =>
      simp only [if_pos rfl] at h
      injection h with h1 h2
      subst h1
      exact serviceKey_done hsk
    | false =>
      simp only [Bool.false_eq_true, if_neg] at h
      obtain ⟨a, ha, hp, hc0, hec⟩ := ih h
      obtain ⟨b, hb, hbp, hbe⟩ := serviceKey_cont hsk
      refine ⟨b ++ a, ?_, ?_, hc0, ?_⟩
      · rw [ha, hb, hbe]
        simp [List.append_assoc]
      · rw [hp, hbp]
      · rw [hec, hbe]

theorem serviceKeys_cont {keys : List ChildStream} {st st' : RunState}
    (h : serviceKeys st keys = (st', false)) :
    ∃ a, st'.outQ = st.outQ ++ a ∧ st'.exitPuts = st.exitPuts ∧
      st'.exitCode = st.exitCode := by
  induction keys generalizing st with
  | nil =>
    rw [serviceKeys] at h
    injection h with h1 h2
    subst h1
    exact ⟨[], by simp, rfl, rfl⟩
  | cons k rest ih =>
    rcases hsk : serviceKey st k with ⟨stm, d⟩
    rw [serviceKeys, hsk] at h
    cases d with
    | true => simp [Prod.ext_iff] at h
    | false =>
      simp only [Bool.false_eq_true, if_neg] at h
      obtain ⟨a, ha, hp, hec⟩ := ih h
      obtain ⟨b, hb, hbp, hbe⟩ := serviceKey_cont hsk
      refine ⟨b ++ a, ?_, ?_, ?_⟩
      · rw [ha, hb]
        simp [List.append_assoc]
      · rw [hp, hbp]
      · rw [hec, hbe]

theorem runLoop_done {sched : List (List ChildStream)} {st st' : RunState}
    (h : runLoop st sched = (st', true)) :
    ∃ a, st'.outQ = st.outQ ++ a ++ ["EXIT " ++ toString st.exitCode] ∧
      st'.exitPuts = st.exitPuts + 1 ∧ st'.pollCountdown = 0 ∧
      st'.exitCode = st.exitCode := by
  induction sched generalizing st with
  | nil => simp [runLoop, Prod.ext_iff] at h
  | cons keys rest ih =>
    rcases hsk : serviceKeys st keys with ⟨stm, d⟩
    rw [runLoop, hsk] at h
    cases d with
    | true =>
      simp only [if_pos rfl] at h
      injection h with h1 h2
      subst h1
      exact serviceKeys_done hsk
    | false =>
      simp only [Bool.false_eq_true, if_neg] at h
      obtain ⟨a, ha, hp, hc0, hec⟩ := ih h
      obtain ⟨b, hb, hbp, hbe⟩ := serviceKeys_cont hsk
      refine ⟨b ++ a, ?_, ?_, hc0, ?_⟩
      · rw [ha, hb, hbe]
        simp [List.append_assoc]
      · rw [hp, hbp]
      · rw [hec, hbe]

theorem runLoop_cont {sched : List (List ChildStream)} {st st' : RunState}
    (h : runLoop st sched = (st', false)) :
    ∃ a, st'.outQ = st.outQ ++ a ∧ st'.exitPuts = st.exitPuts ∧
      st'.exitCode = st.exitCode := by
  induction sched generalizing st with
  | nil =>
    rw [runLoop] at h
    injection h with h1 h2
    subst h1
    exact ⟨[], by simp, rfl, rfl⟩
  | cons keys rest ih =>
    rcases hsk : serviceKeys st keys with ⟨stm, d⟩
    rw [runLoop, hsk] at h
    cases d with
    | true => simp [Prod.ext_iff] at h
    | false =>
      simp only [Bool.false_eq_true, if_neg] at h
      obtain ⟨a, ha, hp, hec⟩ := ih h
      obtain ⟨b, hb, hbp, hbe⟩ := serviceKeys_cont hsk
      refine ⟨b ++ a, ?_, ?_, ?_⟩
      · rw [ha, hb]
        simp [List.append_assoc]
      · rw [hp, hbp]
      · rw [hec, hbe]

/-! ### Consumer-side lemmas: the stdout-queue projection determines the
accumulated stdout, the lock state and every non-STDERR log line -/

/-- Two consumer states that agree on everything the stdout half of
`update_buffer` reads and writes: the accumulated stdout, the lock state,
the two configured messages, and the non-STDERR log lines. -/
def SameOut (a b : Consumer) : Prop :=
  a.stdout = b.stdout ∧ a.locked = b.locked ∧ a.empty_msg = b.empty_msg ∧
  a.output_msg = b.output_msg ∧ nonStderrLines a = nonStderrLines b

theorem sameOut_refl (c : Consumer) : SameOut c c :=
  ⟨rfl, rfl, rfl, rfl, rfl⟩

theorem sameOut_trans {a b c : Consumer} (h1 : SameOut a b) (h2 : SameOut b c) :
    SameOut a c := by
  obtain ⟨x1, x2, x3, x4, x5⟩ := h1
  obtain ⟨y1, y2, y3, y4, y5⟩ := h2
  exact ⟨x1.trans y1, x2.trans y2, x3.trans y3, x4.trans y4, x5.trans y5⟩

theorem sameOut_pst {a b : Consumer} (h : SameOut a b) (t : String) :
    SameOut (processStdoutText a t) (processStdoutText b t) := by
  obtain ⟨h1, h2, h3, h4, h5⟩ := h
  unfold nonStderrLines at h5
  unfold SameOut nonStderrLines processStdoutText
  rw [h1.symm, h3.symm, h4.symm]
  cases matchExit t with
  | none => simp [List.filter_append, h2, h5]
  | some code =>
    by_cases hc : code = 0 <;>
      by_cases hs : a.stdout = "" <;>
        by_cases hem : a.empty_msg = none <;>
          by_cases hom : a.output_msg = none <;>
            simp [hc, hs, hem, hom, List.filter_append, h2, h5, ← h1, ← h3, ← h4]

theorem sameOut_perr (c : Consumer) (t : String) :
    SameOut (processStderrText c t) c := by
  unfold SameOut nonStderrLines processStderrText
  split_ifs <;> simp [List.filter_append]

theorem sameOut_outFold {a b : Consumer} (h : SameOut a b) (l : List String) :
    SameOut (outFold a l) (outFold b l) := by
  induction l generalizing a b with
  | nil => exact h
  | cons t rest ih => exact ih (sameOut_pst h t)

/-- The consumer's stdout-relevant state after any interleaved consumption
of the two queues equals its state after consuming the stdout queue alone:
stderr-queue chunks touch only the accumulated stderr and STDERR lines. -/
theorem processEvents_sameOut (evs : List Ev) (c : Consumer) :
    SameOut (processEvents c evs) (outFold c (outTexts evs)) := by
  induction evs generalizing c with
  | nil => exact sameOut_refl c
  | cons e rest ih =>
    cases e with
    | out t =>
      simpa [processEvents, outTexts, outFold, consumeEv] using
        ih (processStdoutText c t)
    | err t =>
      have h1 := ih (processStderrText c t)
      have h2 := sameOut_outFold (sameOut_perr c t) (outTexts rest)
      simpa [processEvents, outTexts, consumeEv] using sameOut_trans h1 h2

/-- Filtering by a non-STDERR level factors through dropping the STDERR
lines, so consumer states with equal `nonStderrLines` have equal INFO,
ERROR and STDOUT lines. -/
theorem linesWithLevel_congr {lvl : String} (hne : (lvl == "STDERR") = false)
    {a b : Consumer} (h : nonStderrLines a = nonStderrLines b) :
    linesWithLevel lvl a = linesWithLevel lvl b := by
  have key : ∀ r : List (String × Option String),
      (r.filter fun p => p.1 != "STDERR").filter (fun p => p.1 == lvl) =
        r.filter (fun p => p.1 == lvl) := by
    intro r
    induction r with
    | nil => rfl
    | cons x xs ih =>
      by_cases hx : (x.1 == lvl) = true
      · have hx' : x.1 = lvl := by simpa using hx
        have hxs : (x.1 != "STDERR") = true := by
          rw [hx']
          simpa [bne] using hne
        simp [List.filter_cons, hx, hxs, ih]
      · by_cases hs : (x.1 != "STDERR") = true
        · simp [List.filter_cons, hx, hs, ih]
        · simp [List.filter_cons, hx, hs, ih]
  unfold linesWithLevel
  rw [← key a.rendered, ← key b.rendered]
  unfold nonStderrLines at h
  rw [h]

/-- The locked flag after interleaved consumption equals the flag after
consuming the stdout queue alone. -/
theorem processEvents_locked (evs : List Ev) (c : Consumer) :
    (processEvents c evs).locked = (outFold c (outTexts evs)).locked :=
  (processEvents_sameOut evs c).2.1

/-- The INFO, ERROR and STDOUT lines after interleaved consumption equal
those after consuming the stdout queue alone. -/
theorem processEvents_linesWithLevel (lvl : String) (hne : (lvl == "STDERR") = false)
    (evs : List Ev) (c : Consumer) :
    linesWithLevel lvl (processEvents c evs) =
      linesWithLevel lvl (outFold c (outTexts evs)) :=
  linesWithLevel_congr hne (processEvents_sameOut evs c).2.2.2.2

/-- The stdout half of `update_buffer` never touches the accumulated stderr,
never renders a STDERR line, and preserves the display policy. -/
theorem pst_stderr_fields (c : Consumer) (t : String) :
    (processStdoutText c t).stderr = c.stderr ∧
    (processStdoutText c t).ignore_stderr = c.ignore_stderr ∧
    linesWithLevel "STDERR" (processStdoutText c t) = linesWithLevel "STDERR" c := by
  unfold processStdoutText linesWithLevel
  cases matchExit t with
  | none => simp [List.filter_append]
  | some code =>
    by_cases hc : code = 0 <;>
      by_cases hs : c.stdout = "" <;>
        by_cases hem : c.empty_msg = none <;>
          by_cases hom : c.output_msg = none <;>
            simp [hc, hs, hem, hom, List.filter_append]

/-! ### Claim theorems -/

/-- C5: for every child behaviour and readiness schedule, when the worker
loop terminates the CONTROL/exit chunk `"EXIT <code>"` is the last chunk
enqueued on the stdout channel, the terminal put (line 155) has executed
exactly once, and at the moment of that put `p.poll()` had returned the
exit status — the process had exited; while the loop has not terminated the
terminal put has not executed at all. -/
theorem exit_chunk_last_once_after_exit (st0 : RunState)
    (sched : List (List ChildStream)) (hq : st0.outQ = []) (hp : st0.exitPuts = 0) :
    ((runLoop st0 sched).2 = true →
      ∃ pre, (runLoop st0 sched).1.outQ = pre ++ ["EXIT " ++ toString st0.exitCode] ∧
        (runLoop st0 sched).1.exitPuts = 1 ∧
        (runLoop st0 sched).1.pollCountdown = 0) ∧
    ((runLoop st0 sched).2 = false → (runLoop st0 sched).1.exitPuts = 0) := by
  constructor
  · intro hfin
    rcases hr : runLoop st0 sched with ⟨stf, fin⟩
    rw [hr] at hfin
    simp only at hfin
    subst hfin
    obtain ⟨a, ha, hp1, hc0, _⟩ := runLoop_done hr
    exact ⟨a, by simp [ha, hq], by simp [hp1, hp], hc0⟩
  · intro hfin
    rcases hr : runLoop st0 sched with ⟨stf, fin⟩
    rw [hr] at hfin
    simp only at hfin
    subst hfin
    obtain ⟨a, ha, hp1, _⟩ := runLoop_cont hr
    simp [hp1, hp]

theorem exit_chunk_last_once_after_exit_witness :
    quietExitChild.outQ = [] ∧ quietExitChild.exitPuts = 0 ∧
    (runLoop quietExitChild singleStdoutWake).2 = true ∧
    ∃ pre, (runLoop quietExitChild singleStdoutWake).1.outQ =
        pre ++ ["EXIT " ++ toString quietExitChild.exitCode] ∧
      (runLoop quietExitChild singleStdoutWake).1.exitPuts = 1 ∧
      (runLoop quietExitChild singleStdoutWake).1.pollCountdown = 0 :=
  ⟨rfl, rfl, by decide,
    (exit_chunk_last_once_after_exit quietExitChild singleStdoutWake rfl rfl).1 (by decide)⟩

/-- C4 fails on the code: with a final chunk pending on each stream and the
process already exited, the wake-up that reports both streams ready
services stdout first, sees the exit status, enqueues the terminal chunk
and breaks out of the loop — the pending stderr chunk `warning` is never
enqueued on its channel, before or after the terminal chunk. -/
theorem trailing_stderr_chunk_lost :
    (runLoop lostChild bothReadyWake).2 = true ∧
    (runLoop lostChild bothReadyWake).1.outQ = ["done", "EXIT 0"] ∧
    (runLoop lostChild bothReadyWake).1.errQ = [] ∧
    (runLoop lostChild bothReadyWake).1.errReads = ["warning\n"] := by
  decide

/-- C9: the terminal signal is in-band.  A child that merely prints the
line `EXIT 0` on stdout while still running makes `run` enqueue the data
chunk "EXIT 0" (the loop is still going: no terminal put has executed),
yet the consumer classifies that chunk as the terminal exit chunk: it
matches `EXIT (\d+)`, triggers the exit-code-0 policy (here the INFO
empty-output message of the `list` spec) and re-enables the controls. -/
theorem inband_exit_chunk_spoofs_terminal :
    (runLoop inbandChild singleStdoutWake).1.outQ = ["EXIT 0"] ∧
    (runLoop inbandChild singleStdoutWake).2 = false ∧
    (runLoop inbandChild singleStdoutWake).1.exitPuts = 0 ∧
    matchExit "EXIT 0" = some 0 ∧
    (processEvents (initConsumer listSpec) [Ev.out "EXIT 0"]).locked = false ∧
    (processEvents (initConsumer listSpec) [Ev.out "EXIT 0"]).rendered =
      [("INFO", some "Comando executado!")] := by
  decide

/-- C1 fails on the code: when `subprocess.Popen` raises (missing or
unexecutable executable) nothing catches the exception, the worker thread
dies, and no chunk of any kind — error or terminal — is enqueued; a
consumer whose stdout queue never yields a chunk keeps the controls locked
forever, however many ticks run and whatever arrives on the stderr queue. -/
theorem spawn_failure_leaves_ui_locked (sched : List (List ChildStream))
    (c0 : Consumer) (evs : List Ev) (hout : outTexts evs = [])
    (hl : c0.locked = true) :
    runThread none sched = Except.error () ∧
    (processEvents c0 evs).locked = true := by
  refine ⟨rfl, ?_⟩
  have h := processEvents_locked evs c0
  rw [hout] at h
  rw [h]
  exact hl

theorem spawn_failure_leaves_ui_locked_witness :
    outTexts [Ev.err "Traceback"] = [] ∧ (initConsumer updateSpec).locked = true ∧
    runThread none singleStdoutWake = Except.error () ∧
    (processEvents (initConsumer updateSpec) [Ev.err "Traceback"]).locked = true :=
  ⟨rfl, rfl,
    (spawn_failure_leaves_ui_locked singleStdoutWake (initConsumer updateSpec)
      [Ev.err "Traceback"] rfl rfl).1,
    (spawn_failure_leaves_ui_locked singleStdoutWake (initConsumer updateSpec)
      [Ev.err "Traceback"] rfl rfl).2⟩

/-- C3 counterexample: the `list` spec's configured empty-output message is
the literal "Comando executado!", not a "No upgrades found" sentinel, and
the single INFO line rendered when the child prints nothing and exits 0
carries that literal, not "No upgrades found". -/
theorem list_sentinel_counterexample :
    listSpec.empty_msg = some "Comando executado!" ∧
    listSpec.empty_msg ≠ some "No upgrades found" ∧
    (runLoop quietExitChild singleStdoutWake).1.outQ = ["EXIT 0"] ∧
    (processEvents (initConsumer listSpec) [Ev.out "EXIT 0"]).rendered =
      [("INFO", some "Comando executado!")] ∧
    (processEvents (initConsumer listSpec) [Ev.out "EXIT 0"]).rendered ≠
      [("INFO", some "No upgrades found")] := by
  decide

/-- C3 amended: the `list` spec's empty-output message is the literal
"Comando executado!"; when the child prints nothing and exits 0 the worker
delivers exactly the terminal chunk and the consumer renders exactly one
INFO line carrying that message and re-enables the controls. -/
theorem list_empty_output_render :
    (runLoop quietExitChild singleStdoutWake).1.outQ = ["EXIT 0"] ∧
    (processEvents (initConsumer listSpec) [Ev.out "EXIT 0"]).rendered =
      [("INFO", some "Comando executado!")] ∧
    linesWithLevel "INFO" (processEvents (initConsumer listSpec) [Ev.out "EXIT 0"]) =
      [("INFO", some "Comando executado!")] ∧
    (processEvents (initConsumer listSpec) [Ev.out "EXIT 0"]).locked = false := by
  decide

/-- C2: when the terminal chunk carries exit code 0 and the accumulated
stdout is non-empty with a configured `output_msg`, the rendered INFO line
carries `empty_msg` — exactly as line 223 passes `self.empty_msg` — not
`output_msg` and not the accumulated text, so the configured `output_msg`
value is never rendered. -/
theorem nonempty_branch_renders_empty_msg (c : Consumer) (t om em : String)
    (hm : matchExit t = some 0) (hs : c.stdout ≠ "") (ho : c.output_msg = some om)
    (he : c.empty_msg = some em) :
    processStdoutText c t =
      { c with rendered := c.rendered ++ [("INFO", some em)], locked := false } := by
  unfold processStdoutText
  rw [hm]
  simp [hs, ho, he]

theorem nonempty_branch_renders_empty_msg_witness :
    matchExit "EXIT 0" = some 0 ∧ busyListConsumer.stdout ≠ "" ∧
    busyListConsumer.output_msg = some "Found the following package upgrades:" ∧
    busyListConsumer.empty_msg = some "Comando executado!" ∧
    processStdoutText busyListConsumer "EXIT 0" =
      { busyListConsumer with
        rendered := busyListConsumer.rendered ++ [("INFO", some "Comando executado!")],
        locked := false } :=
  ⟨by decide, by decide, rfl, rfl,
    nonempty_branch_renders_empty_msg busyListConsumer "EXIT 0"
      "Found the following package upgrades:" "Comando executado!"
      (by decide) (by decide) rfl rfl⟩

/-- C6: whenever the stdout queue's contents end with a terminal chunk
carrying a non-zero exit code `n`, the consumer — whatever messages are
configured, whatever was accumulated, and however the stderr queue is
interleaved — renders the ERROR line "Command exited with code n" and
re-enables the controls. -/
theorem nonzero_exit_renders_error (c0 : Consumer) (evs : List Ev)
    (pre : List String) (t : String) (n : Nat)
    (hout : outTexts evs = pre ++ [t]) (hm : matchExit t = some n) (hn : n ≠ 0) :
    ("ERROR", some ("Command exited with code " ++ toString n)) ∈
      (processEvents c0 evs).rendered ∧
    (processEvents c0 evs).locked = false := by
  have hso := processEvents_sameOut evs c0
  rw [hout] at hso
  have hfold : outFold c0 (pre ++ [t]) = processStdoutText (outFold c0 pre) t := by
    simp [outFold, List.foldl_append]
  constructor
  · have h5 := hso.2.2.2.2
    rw [hfold] at h5
    have hline : ("ERROR", some ("Command exited with code " ++ toString n)) ∈
        nonStderrLines (processStdoutText (outFold c0 pre) t) := by
      unfold nonStderrLines processStdoutText
      rw [hm]
      simp [hn]
    rw [← h5] at hline
    exact (List.mem_filter.mp hline).1
  · have hl := hso.2.1
    rw [hfold] at hl
    rw [hl]
    unfold processStdoutText
    rw [hm]

theorem nonzero_exit_renders_error_witness :
    outTexts [Ev.out "fetching", Ev.err "E: locked", Ev.out "EXIT 100"] =
      ["fetching"] ++ ["EXIT 100"] ∧
    matchExit "EXIT 100" = some 100 ∧
    ("ERROR", some ("Command exited with code " ++ toString 100)) ∈
      (processEvents (initConsumer upgradeSpec)
        [Ev.out "fetching", Ev.err "E: locked", Ev.out "EXIT 100"]).rendered ∧
    (processEvents (initConsumer upgradeSpec)
      [Ev.out "fetching", Ev.err "E: locked", Ev.out "EXIT 100"]).locked = false :=
  ⟨by decide, by decide,
    (nonzero_exit_renders_error (initConsumer upgradeSpec)
      [Ev.out "fetching", Ev.err "E: locked", Ev.out "EXIT 100"]
      ["fetching"] "EXIT 100" 100 (by decide) (by decide) (by decide)).1,
    (nonzero_exit_renders_error (initConsumer upgradeSpec)
      [Ev.out "fetching", Ev.err "E: locked", Ev.out "EXIT 100"]
      ["fetching"] "EXIT 100" 100 (by decide) (by decide) (by decide)).2⟩

/-- C7: a run that ends with exit code 0, an empty accumulated stdout (the
stdout queue delivered only the terminal chunk) and a configured
`empty_msg` renders exactly one INFO line — carrying that message — and
zero STDOUT lines, under every interleaving with the stderr queue. -/
theorem empty_output_renders_single_info (c0 : Consumer) (evs : List Ev)
    (t em : String) (hs : c0.stdout = "") (hr : c0.rendered = [])
    (he : c0.empty_msg = some em) (hout : outTexts evs = [t])
    (hm : matchExit t = some 0) :
    linesWithLevel "INFO" (processEvents c0 evs) = [("INFO", some em)] ∧
    linesWithLevel "STDOUT" (processEvents c0 evs) = [] := by
  have hI := processEvents_linesWithLevel "INFO" (by decide) evs c0
  have hS := processEvents_linesWithLevel "STDOUT" (by decide) evs c0
  rw [hout] at hI hS
  have hfold : outFold c0 [t] = processStdoutText c0 t := by
    simp [outFold]
  rw [hfold] at hI hS
  constructor
  · rw [hI]
    unfold linesWithLevel processStdoutText
    rw [hm]
    simp [hs, he, hr]
  · rw [hS]
    unfold linesWithLevel processStdoutText
    rw [hm]
    simp [hs, he, hr]

theorem empty_output_renders_single_info_witness :
    (initConsumer upgradeSpec).stdout = "" ∧
    (initConsumer upgradeSpec).rendered = [] ∧
    (initConsumer upgradeSpec).empty_msg = some "No package upgrades were performed." ∧
    outTexts [Ev.err "W: http warning", Ev.out "EXIT 0"] = ["EXIT 0"] ∧
    matchExit "EXIT 0" = some 0 ∧
    linesWithLevel "INFO" (processEvents (initConsumer upgradeSpec)
        [Ev.err "W: http warning", Ev.out "EXIT 0"]) =
      [("INFO", some "No package upgrades were performed.")] ∧
    linesWithLevel "STDOUT" (processEvents (initConsumer upgradeSpec)
        [Ev.err "W: http warning", Ev.out "EXIT 0"]) = [] :=
  ⟨rfl, rfl, rfl, by decide, by decide,
    (empty_output_renders_single_info (initConsumer upgradeSpec)
      [Ev.err "W: http warning", Ev.out "EXIT 0"] "EXIT 0"
      "No package upgrades were performed." rfl rfl rfl (by decide) (by decide)).1,
    (empty_output_renders_single_info (initConsumer upgradeSpec)
      [Ev.err "W: http warning", Ev.out "EXIT 0"] "EXIT 0"
      "No package upgrades were performed." rfl rfl rfl (by decide) (by decide)).2⟩

/-- C8: with `ignore_stderr` set, the consumer never renders a STDERR line,
however many chunks arrive on the stderr channel and whatever else happens,
while every stderr chunk is still appended to the accumulated stderr
buffer in order. -/
theorem ignored_stderr_never_rendered (c0 : Consumer) (evs : List Ev)
    (hig : c0.ignore_stderr = true) :
    linesWithLevel "STDERR" (processEvents c0 evs) = linesWithLevel "STDERR" c0 ∧
    (processEvents c0 evs).stderr =
      (errTexts evs).foldl (fun a t => a ++ t) c0.stderr := by
  induction evs generalizing c0 with
  | nil => exact ⟨rfl, rfl⟩
  | cons e rest ih =>
    cases e with
    | out t =>
      have hf := pst_stderr_fields c0 t
      have hrec := ih (processStdoutText c0 t) (hf.2.1.trans hig)
      refine ⟨?_, ?_⟩
      · calc linesWithLevel "STDERR" (processEvents c0 (Ev.out t :: rest))
            = linesWithLevel "STDERR" (processEvents (processStdoutText c0 t) rest) := rfl
          _ = linesWithLevel "STDERR" (processStdoutText c0 t) := hrec.1
          _ = linesWithLevel "STDERR" c0 := hf.2.2
      · calc (processEvents c0 (Ev.out t :: rest)).stderr
            = (errTexts rest).foldl (fun a t => a ++ t) (processStdoutText c0 t).stderr :=
              hrec.2
          _ = (errTexts rest).foldl (fun a t => a ++ t) c0.stderr := by rw [hf.1]
          _ = (errTexts (Ev.out t :: rest)).foldl (fun a t => a ++ t) c0.stderr := by
              simp [errTexts]
    | err t =>
      have h1 : processStderrText c0 t = { c0 with stderr := c0.stderr ++ t } := by
        unfold processStderrText
        simp [hig]
      have hrec := ih { c0 with stderr := c0.stderr ++ t } hig
      refine ⟨?_, ?_⟩
      · calc linesWithLevel "STDERR" (processEvents c0 (Ev.err t :: rest))
            = linesWithLevel "STDERR"
                (processEvents (processStderrText c0 t) rest) := rfl
          _ = linesWithLevel "STDERR"
                (processEvents { c0 with stderr := c0.stderr ++ t } rest) := by rw [h1]
          _ = linesWithLevel "STDERR" { c0 with stderr := c0.stderr ++ t } := hrec.1
          _ = linesWithLevel "STDERR" c0 := rfl
      · calc (processEvents c0 (Ev.err t :: rest)).stderr
            = (processEvents (processStderrText c0 t) rest).stderr := rfl
          _ = (processEvents { c0 with stderr := c0.stderr ++ t } rest).stderr := by rw [h1]
          _ = (errTexts rest).foldl (fun a t => a ++ t) (c0.stderr ++ t) := hrec.2
          _ = (errTexts (Ev.err t :: rest)).foldl (fun a t => a ++ t) c0.stderr := rfl

theorem ignored_stderr_never_rendered_witness :
    (initConsumer listSpec).ignore_stderr = true ∧
    linesWithLevel "STDERR" (processEvents (initConsumer listSpec)
      [Ev.err "W: warn", Ev.out "pkg/now 1.0", Ev.err "W: more"]) =
      linesWithLevel "STDERR" (initConsumer listSpec) ∧
    (processEvents (initConsumer listSpec)
      [Ev.err "W: warn", Ev.out "pkg/now 1.0", Ev.err "W: more"]).stderr =
      (errTexts [Ev.err "W: warn", Ev.out "pkg/now 1.0", Ev.err "W: more"]).foldl
        (fun a t => a ++ t) (initConsumer listSpec).stderr :=
  ⟨rfl,
    (ignored_stderr_never_rendered (initConsumer listSpec)
      [Ev.err "W: warn", Ev.out "pkg/now 1.0", Ev.err "W: more"] rfl).1,
    (ignored_stderr_never_rendered (initConsumer listSpec)
      [Ev.err "W: warn", Ev.out "pkg/now 1.0", Ev.err "W: more"] rfl).2⟩

/-- C10: when the child is terminated by a signal, `p.poll()` returns the
negative code `-(m+1)` and the worker enqueues the chunk "EXIT -(m+1)",
which does not match the consumer's pattern `EXIT (\d+)`: over any
interleaving in which the stdout queue delivered exactly that chunk, the
consumer renders it as an ordinary STDOUT line, produces no ERROR line and
no INFO line, and the controls are never re-enabled for that run. -/
theorem signal_exit_never_unlocks (m : Nat) (c0 : Consumer) (evs : List Ev)
    (hl : c0.locked = true) (hr : c0.rendered = [])
    (hout : outTexts evs = ["EXIT " ++ toString (Int.negSucc m)]) :
    (runLoop (signalChild m) singleStdoutWake).1.outQ =
      ["EXIT " ++ toString (Int.negSucc m)] ∧
    matchExit ("EXIT " ++ toString (Int.negSucc m)) = none ∧
    (processEvents c0 evs).locked = true ∧
    linesWithLevel "STDOUT" (processEvents c0 evs) =
      [("STDOUT", some ("EXIT " ++ toString (Int.negSucc m)))] ∧
    linesWithLevel "ERROR" (processEvents c0 evs) = [] ∧
    linesWithLevel "INFO" (processEvents c0 evs) = [] := by
  have hm : matchExit ("EXIT " ++ toString (Int.negSucc m)) = none := rfl
  have hfold : outFold c0 ["EXIT " ++ toString (Int.negSucc m)] =
      processStdoutText c0 ("EXIT " ++ toString (Int.negSucc m)) := by
    simp [outFold]
  have hpst : processStdoutText c0 ("EXIT " ++ toString (Int.negSucc m)) =
      { c0 with stdout := c0.stdout ++ ("EXIT " ++ toString (Int.negSucc m)),
                rendered := c0.rendered ++
                  [("STDOUT", some ("EXIT " ++ toString (Int.negSucc m)))] } := by
    unfold processStdoutText
    rw [hm]
  refine ⟨rfl, hm, ?_, ?_, ?_, ?_⟩
  · have h := processEvents_locked evs c0
    rw [hout, hfold, hpst] at h
    rw [h]
    exact hl
  · have h := processEvents_linesWithLevel "STDOUT" (by decide) evs c0
    rw [hout, hfold, hpst] at h
    rw [h]
    unfold linesWithLevel
    simp [hr]
  · have h := processEvents_linesWithLevel "ERROR" (by decide) evs c0
    rw [hout, hfold, hpst] at h
    rw [h]
    unfold linesWithLevel
    simp [hr]
  · have h := processEvents_linesWithLevel "INFO" (by decide) evs c0
    rw [hout, hfold, hpst] at h
    rw [h]
    unfold linesWithLevel
    simp [hr]

theorem signal_exit_never_unlocks_witness :
    (initConsumer updateSpec).locked = true ∧
    (initConsumer updateSpec).rendered = [] ∧
    outTexts [Ev.out "EXIT -9"] = ["EXIT " ++ toString (Int.negSucc 8)] ∧
    (runLoop (signalChild 8) singleStdoutWake).1.outQ =
      ["EXIT " ++ toString (Int.negSucc 8)] ∧
    matchExit ("EXIT " ++ toString (Int.negSucc 8)) = none ∧
    (processEvents (initConsumer updateSpec) [Ev.out "EXIT -9"]).locked = true ∧
    linesWithLevel "STDOUT" (processEvents (initConsumer updateSpec) [Ev.out "EXIT -9"]) =
      [("STDOUT", some ("EXIT " ++ toString (Int.negSucc 8)))] ∧
    linesWithLevel "ERROR" (processEvents (initConsumer updateSpec) [Ev.out "EXIT -9"]) = [] ∧
    linesWithLevel "INFO" (processEvents (initConsumer updateSpec) [Ev.out "EXIT -9"]) = [] := by
  refine ⟨rfl, rfl, by decide, ?_⟩
  have h := signal_exit_never_unlocks 8 (initConsumer updateSpec)
    [Ev.out "EXIT -9"] rfl rfl (by decide)
  exact ⟨h.1, h.2.1, h.2.2.1, h.2.2.2.1, h.2.2.2.2.1, h.2.2.2.2.2⟩
